import Mathlib

/-
Verification of the topology controllers of the sssd-test-framework
(`src/sssd_test_framework/topology_controllers.py`).

The controllers are shallowly embedded as trace-producing functions.  Every
externally visible effect (logging, file removal, path backup, remote command
execution, kinit, sleeping between retries, host snapshots, restores and the
delegations to the inherited teardown) is recorded as an `Action`.  Remote
steps are fallible: an environment oracle `Env` decides, per step, whether the
step succeeds or fails with some stderr text.  A computation threads a trace
`Tr` (the list of actions performed so far together with a clock counting the
fallible steps) and returns `Except String Unit` — `Except.error e` models a
raised `ProcessError` carrying stderr `e`.
-/

namespace SSSDTF

/-- A remote host participating in a topology: hostname, domain and the
administrative password (`adminpw`). -/
structure Host where
  hostname : String
  domain : String
  adminpw : String
deriving DecidableEq

/-- An observable effect issued by a topology controller. -/
inductive Action where
  | log (msg : String)
  | rm (host : String) (path : String)
  | backupPath (host : String) (path : String)
  | exec (host : String) (argv : List String) (stdin : Option String)
  | kinit (host : String)
  | sleep (seconds : Nat)
  | snapshotAll (hosts : List String)
  | backupHost (host : String)
  | restoreVanilla
  | topologyTeardownSuper
  | teardownSuper
deriving DecidableEq

/-- Result of one fallible remote step: success, or failure carrying stderr. -/
inductive Res where
  | ok
  | err (stderr : String)
deriving DecidableEq

/-- The environment oracle: given the index of the fallible step about to be
performed and the action itself, decide its outcome. -/
abbrev Env := Nat → Action → Res

/-- A trace: the actions performed so far and the number of fallible steps
performed so far (the clock that indexes the environment oracle). -/
structure Tr where
  events : List Action
  clock : Nat
deriving DecidableEq

/-- The empty trace at the start of one method invocation. -/
def Tr.empty : Tr := ⟨[], 0⟩

/-- Which actions can raise.  Logging, sleeping and the externally provided
restore/teardown delegations are modelled as infallible. -/
def fallible : Action → Bool
  | Action.log _ => false
  | Action.sleep _ => false
  | Action.restoreVanilla => false
  | Action.topologyTeardownSuper => false
  | Action.teardownSuper => false
  | _ => true

/-- Outcome of performing `a` next: infallible actions always succeed,
fallible ones are decided by the oracle at the current clock. -/
def stepRes (env : Env) (a : Action) (s : Tr) : Res :=
  if fallible a then env s.clock a else Res.ok

/-- The trace after performing `a`: the action is appended and the clock
advances exactly when the action consulted the oracle. -/
def stepTr (a : Action) (s : Tr) : Tr :=
  ⟨s.events ++ [a], if fallible a then s.clock + 1 else s.clock⟩

/-- Run a fixed list of actions in order, stopping at the first failure and
propagating its stderr as the raised error. -/
def runActs (env : Env) : List Action → Tr → Except String Unit × Tr
  | [], s => (Except.ok (), s)
  | a :: rest, s =>
    match stepRes env a s with
    | Res.ok => runActs env rest (stepTr a s)
    | Res.err e => (Except.error e, stepTr a s)

/-- Sequential composition: run the continuation only if the first part
succeeded, otherwise propagate its error and trace unchanged. -/
def andThen (r : Except String Unit × Tr) (f : Tr → Except String Unit × Tr) :
    Except String Unit × Tr :=
  match r with
  | (Except.ok _, s1) => f s1
  | (Except.error e, s1) => (Except.error e, s1)

/-- The state of a topology controller: its name, the `provisioned` flag and
`multihost.provisioned_topologies` (the externally supplied set of
already-provisioned topology names). -/
structure Controller where
  name : String
  provisioned : Bool
  provisionedTopologies : List String
deriving DecidableEq

/-- Construction (`__init__`): after the inherited constructor, the
`provisioned` flag is set to `False`; `multihost` is not yet available, so the
provisioned-topology set is empty. -/
def ProvisionedBackupTopologyController.new (name : String) : Controller :=
  ⟨name, false, []⟩

/-- `init`: after the inherited init, `provisioned` becomes the membership of
the controller's name in `multihost.provisioned_topologies`. -/
def ProvisionedBackupTopologyController.init (c : Controller)
    (pt : List String) : Controller :=
  { c with provisionedTopologies := pt, provisioned := decide (c.name ∈ pt) }

/-- `topology_teardown`: return immediately when provisioned, otherwise
delegate to the inherited topology teardown. -/
def ProvisionedBackupTopologyController.topology_teardown (c : Controller) :
    List Action :=
  if c.provisioned then [] else [Action.topologyTeardownSuper]

/-- `teardown` (per test): when provisioned restore the hosts to the vanilla
snapshot, otherwise delegate to the inherited per-test teardown. -/
def ProvisionedBackupTopologyController.teardown (c : Controller) :
    List Action :=
  if c.provisioned then [Action.restoreVanilla] else [Action.teardownSuper]

/-- The log message emitted when a setup routine short-circuits because the
topology is already provisioned. -/
def provisionedLog (c : Controller) : Action :=
  Action.log ("Topology \x27" ++ c.name ++ "\x27 is already provisioned")

/-- The `@BackupTopologyController.restore_vanilla_on_error` decorator: run the
body; on success pass its result through, on failure perform one
restore-to-vanilla and re-raise the original error unchanged. -/
def restore_vanilla_on_error (body : Tr → Except String Unit × Tr) (s : Tr) :
    Except String Unit × Tr :=
  match body s with
  | (Except.ok u, s1) => (Except.ok u, s1)
  | (Except.error e, s1) => (Except.error e, stepTr Action.restoreVanilla s1)

/-- The hosts whose snapshots are present in the controller's
`backup_data` mapping after the given trace: `snapshotAll` (the inherited
snapshot-all-hosts step) contributes all its hosts, `backupHost` (an explicit
`host.backup()` assignment) contributes its host. -/
def backupHosts : List Action → List String
  | [] => []
  | Action.snapshotAll hs :: rest => hs ++ backupHosts rest
  | Action.backupHost h :: rest => h :: backupHosts rest
  | Action.log _ :: rest => backupHosts rest
  | Action.rm _ _ :: rest => backupHosts rest
  | Action.backupPath _ _ :: rest => backupHosts rest
  | Action.exec _ _ _ :: rest => backupHosts rest
  | Action.kinit _ :: rest => backupHosts rest
  | Action.sleep _ :: rest => backupHosts rest
  | Action.restoreVanilla :: rest => backupHosts rest
  | Action.topologyTeardownSuper :: rest => backupHosts rest
  | Action.teardownSuper :: rest => backupHosts rest

/-- The IPA client-join sequence shared by the IPA and trust topologies:
log, remove stale Kerberos configuration and keytab, back up the
ipa-client-install files, then `realm join` with the admin password on stdin. -/
def ipaJoinActs (client ipa : Host) : List Action :=
  [ Action.log ("Enrolling " ++ client.hostname ++ " into " ++ ipa.domain),
    Action.rm client.hostname "/etc/krb5.conf",
    Action.rm client.hostname "/etc/krb5.keytab",
    Action.backupPath client.hostname "/etc/ipa",
    Action.backupPath client.hostname "/var/lib/ipa-client",
    Action.exec client.hostname ["realm", "join", ipa.domain] (some ipa.adminpw) ]

/-- The action list of `IPATopologyController.topology_setup` past the
provisioned check: the IPA client join followed by the inherited
snapshot-all-hosts step (`super().topology_setup()`). -/
def IPATopologyController.setupActs (client ipa : Host) : List Action :=
  ipaJoinActs client ipa ++ [Action.snapshotAll [client.hostname, ipa.hostname]]

/-- The body of `IPATopologyController.topology_setup` (before the rollback
decorator is applied). -/
def IPATopologyController.setupBody (env : Env) (c : Controller)
    (client ipa : Host) (s : Tr) : Except String Unit × Tr :=
  if c.provisioned then (Except.ok (), stepTr (provisionedLog c) s)
  else runActs env (IPATopologyController.setupActs client ipa) s

/-- `IPATopologyController.topology_setup`, with the
`restore_vanilla_on_error` decorator applied. -/
def IPATopologyController.topology_setup (env : Env) (c : Controller)
    (client ipa : Host) (s : Tr) : Except String Unit × Tr :=
  restore_vanilla_on_error (IPATopologyController.setupBody env c client ipa) s

/-- The action list of `ADTopologyController.topology_setup` past the
provisioned check: log, remove stale Kerberos files, `realm join`, then the
inherited snapshot-all-hosts step. -/
def ADTopologyController.setupActs (client provider : Host) : List Action :=
  [ Action.log ("Enrolling " ++ client.hostname ++ " into " ++ provider.domain),
    Action.rm client.hostname "/etc/krb5.conf",
    Action.rm client.hostname "/etc/krb5.keytab",
    Action.exec client.hostname ["realm", "join", provider.domain] (some provider.adminpw),
    Action.snapshotAll [client.hostname, provider.hostname] ]

/-- The body of `ADTopologyController.topology_setup`. -/
def ADTopologyController.setupBody (env : Env) (c : Controller)
    (client provider : Host) (s : Tr) : Except String Unit × Tr :=
  if c.provisioned then (Except.ok (), stepTr (provisionedLog c) s)
  else runActs env (ADTopologyController.setupActs client provider) s

/-- `ADTopologyController.topology_setup`, decorated. -/
def ADTopologyController.topology_setup (env : Env) (c : Controller)
    (client provider : Host) (s : Tr) : Except String Unit × Tr :=
  restore_vanilla_on_error (ADTopologyController.setupBody env c client provider) s

/-- `SambaTopologyController` subclasses `ADTopologyController` with an empty
body, so its setup is the inherited one. -/
def SambaTopologyController.topology_setup :=
  ADTopologyController.topology_setup

/-- Whether `p` is a prefix of `l` (character lists). -/
def isPrefOf : List Char → List Char → Bool
  | [], _ => true
  | _ :: _, [] => false
  | a :: p, b :: l => a == b && isPrefOf p l

/-- Whether `pat` occurs contiguously inside `l` (character lists). -/
def containsSub : List Char → List Char → Bool
  | [], pat => pat.isEmpty
  | c :: rest, pat => isPrefOf pat (c :: rest) || containsSub rest pat

/-- Substring match on stderr, as Python's `in`: whether `pat` occurs inside
`s`. -/
def matchesSubstr (s pat : String) : Bool :=
  containsSub s.data pat.data

/-- The transient stderr fragment recognised by the trust-add retry. -/
def cifsMatch : String :=
  "CIFS server communication error: code \"3221225581\""

/-- The `ipa trust-add` command issued by
`IPATrustADTopologyController.trust_add`. -/
def trustAddCmd (ipa trusted : Host) : Action :=
  Action.exec ipa.hostname
    ["ipa", "trust-add", trusted.domain, "--admin", "Administrator", "--password"]
    (some trusted.adminpw)

/-- Modelled from the spec: the `retry_command` decorator lives in
`sssd_test_framework/misc/ssh.py`, which is not under `src/`.  Per the spec it
retries the wrapped command up to `maxRetries` (here the fuel argument) times
with `delay` seconds between attempts, exactly while the failure's stderr
matches `pat`; a non-matching failure propagates immediately and the attempt
budget is 20 with a 5 second delay for `trust_add`. -/
def retryCommand (env : Env) (cmd : Action) (pat : String) (delay : Nat) :
    Nat → Tr → Except String Unit × Tr
  | 0, s => (Except.error "", s)
  | n + 1, s =>
    match stepRes env cmd s with
    | Res.ok => (Except.ok (), stepTr cmd s)
    | Res.err e =>
      if matchesSubstr e pat && n != 0 then
        retryCommand env cmd pat delay n (stepTr (Action.sleep delay) (stepTr cmd s))
      else (Except.error e, stepTr cmd s)

/-- `IPATrustADTopologyController.trust_add`: the `ipa trust-add` command
wrapped in `@retry_command(max_retries=20, delay=5, match_stderr=...)`. -/
def IPATrustADTopologyController.trust_add (env : Env) (ipa trusted : Host)
    (s : Tr) : Except String Unit × Tr :=
  retryCommand env (trustAddCmd ipa trusted) cifsMatch 5 20 s

/-- Whether the client IPA join is skipped: `"ipa" in
self.multihost.provisioned_topologies`. -/
def skipJoin (c : Controller) : Bool :=
  c.provisionedTopologies.contains "ipa"

/-- The conditional client-join block of the trust topologies. -/
def joinIfNeeded (c : Controller) (client ipa : Host) : List Action :=
  if skipJoin c then [] else ipaJoinActs client ipa

/-- The body of `IPATrustADTopologyController.topology_setup`: log, kinit,
retry-wrapped trust-add, the conditional client join, then the inherited
snapshot-all-hosts step. -/
def IPATrustADTopologyController.setupBody (env : Env) (c : Controller)
    (client ipa trusted : Host) (s : Tr) : Except String Unit × Tr :=
  if c.provisioned then (Except.ok (), stepTr (provisionedLog c) s)
  else
    andThen
      (runActs env
        [ Action.log ("Establishing trust between " ++ ipa.domain ++ " and " ++ trusted.domain),
          Action.kinit ipa.hostname ] s)
      (fun s2 =>
        andThen (IPATrustADTopologyController.trust_add env ipa trusted s2)
          (fun s3 =>
            runActs env
              (joinIfNeeded c client ipa
                ++ [Action.snapshotAll [client.hostname, ipa.hostname, trusted.hostname]]) s3))

/-- `IPATrustADTopologyController.topology_setup`, decorated. -/
def IPATrustADTopologyController.topology_setup (env : Env) (c : Controller)
    (client ipa trusted : Host) (s : Tr) : Except String Unit × Tr :=
  restore_vanilla_on_error
    (IPATrustADTopologyController.setupBody env c client ipa trusted) s

/-- `IPATrustSambaTopologyController` subclasses
`IPATrustADTopologyController` with an empty body. -/
def IPATrustSambaTopologyController.topology_setup :=
  IPATrustADTopologyController.topology_setup

/-- The inherited `trust_add` of `IPATrustSambaTopologyController`. -/
def IPATrustSambaTopologyController.trust_add :=
  IPATrustADTopologyController.trust_add

/-- The `ipa trust-add` command of the IPA-IPA topology: a two-way trust with
the POSIX range type requested explicitly. -/
def ipaIpaTrustCmd (ipa trusted : Host) : Action :=
  Action.exec ipa.hostname
    ["ipa", "trust-add", trusted.domain, "--admin", "admin", "--password",
     "--range-type=ipa-ad-trust-posix", "--type=ipa", "--two-way=true"]
    (some trusted.adminpw)

/-- The pre-join action list of `IPATrustIPATopologyController.topology_setup`:
COPR enable and package update on all three hosts, sssd-kcm restart on both
IPA realms, then log, kinit and the two-way trust-add. -/
def IPATrustIPATopologyController.preTrustActs (client ipa trusted : Host) :
    List Action :=
  [ Action.log "Adding COPR and updating packages",
    Action.exec ipa.hostname ["dnf", "copr", "enable", "abbra/wip-ipa-trust", "-y"] none,
    Action.exec client.hostname ["dnf", "copr", "enable", "abbra/wip-ipa-trust", "-y"] none,
    Action.exec trusted.hostname ["dnf", "copr", "enable", "abbra/wip-ipa-trust", "-y"] none,
    Action.exec ipa.hostname ["dnf", "update", "freeipa-server", "sssd-client", "-y"] none,
    Action.exec trusted.hostname ["dnf", "update", "freeipa-server", "sssd-client", "-y"] none,
    Action.exec client.hostname ["dnf", "update", "sssd-client", "-y"] none,
    Action.exec ipa.hostname ["systemctl", "restart", "sssd-kcm"] none,
    Action.exec trusted.hostname ["systemctl", "restart", "sssd-kcm"] none,
    Action.log ("Establishing trust between " ++ ipa.domain ++ " and " ++ trusted.domain),
    Action.kinit ipa.hostname,
    ipaIpaTrustCmd ipa trusted ]

/-- The full action list of `IPATrustIPATopologyController.topology_setup`
past the provisioned check: the pre-join actions, the conditional client join,
then the three explicit `backup_data[...] = host.backup()` assignments in
source order (ipa, trusted, client). -/
def IPATrustIPATopologyController.setupActs (c : Controller)
    (client ipa trusted : Host) : List Action :=
  IPATrustIPATopologyController.preTrustActs client ipa trusted
    ++ joinIfNeeded c client ipa
    ++ [Action.backupHost ipa.hostname, Action.backupHost trusted.hostname,
        Action.backupHost client.hostname]

/-- The body of `IPATrustIPATopologyController.topology_setup`. -/
def IPATrustIPATopologyController.setupBody (env : Env) (c : Controller)
    (client ipa trusted : Host) (s : Tr) : Except String Unit × Tr :=
  if c.provisioned then (Except.ok (), stepTr (provisionedLog c) s)
  else runActs env (IPATrustIPATopologyController.setupActs c client ipa trusted) s

/-- `IPATrustIPATopologyController.topology_setup`, decorated. -/
def IPATrustIPATopologyController.topology_setup (env : Env) (c : Controller)
    (client ipa trusted : Host) (s : Tr) : Except String Unit × Tr :=
  restore_vanilla_on_error
    (IPATrustIPATopologyController.setupBody env c client ipa trusted) s

/-- Modelled from the spec: the inherited
`BackupTopologyController.topology_setup` of the external test framework is
the snapshot-all-hosts step that captures the clean baseline. -/
def BackupTopologyController.topology_setup (env : Env) (hosts : List String)
    (s : Tr) : Except String Unit × Tr :=
  runActs env [Action.snapshotAll hosts] s

/-- `LDAPTopologyController` adds nothing to the base: inherited setup. -/
def LDAPTopologyController.topology_setup :=
  BackupTopologyController.topology_setup

/-- `LDAPTopologyController` inherited per-test teardown. -/
def LDAPTopologyController.teardown :=
  ProvisionedBackupTopologyController.teardown

/-- `LDAPTopologyController` inherited topology teardown. -/
def LDAPTopologyController.topology_teardown :=
  ProvisionedBackupTopologyController.topology_teardown

/-- `ClientTopologyController` adds nothing to the base: inherited setup. -/
def ClientTopologyController.topology_setup :=
  BackupTopologyController.topology_setup

/-- `ClientTopologyController` inherited per-test teardown. -/
def ClientTopologyController.teardown :=
  ProvisionedBackupTopologyController.teardown

/-- `ClientTopologyController` inherited topology teardown. -/
def ClientTopologyController.topology_teardown :=
  ProvisionedBackupTopologyController.topology_teardown

/-- The client-join actions named by claim C5: krb5 file removal, the two
ipa-client backups and the `realm join` command on the client. -/
def isJoinAction (client ipa : Host) : Action → Prop
  | Action.rm h p => h = client.hostname ∧ (p = "/etc/krb5.conf" ∨ p = "/etc/krb5.keytab")
  | Action.backupPath h p => h = client.hostname ∧ (p = "/etc/ipa" ∨ p = "/var/lib/ipa-client")
  | Action.exec h argv _ => h = client.hostname ∧ argv = ["realm", "join", ipa.domain]
  | _ => False

/-! ### Basic trace lemmas -/

theorem stepTr_events (a : Action) (s : Tr) :
    (stepTr a s).events = s.events ++ [a] := rfl

theorem backupHosts_append (l1 l2 : List Action) :
    backupHosts (l1 ++ l2) = backupHosts l1 ++ backupHosts l2 := by
  induction l1 with
  | nil => simp [backupHosts]
  | cons a rest ih =>
    cases a <;> simp [backupHosts, ih]

theorem runActs_ok_events (env : Env) :
    ∀ (acts : List Action) (s : Tr),
      (runActs env acts s).1 = Except.ok () →
      (runActs env acts s).2.events = s.events ++ acts := by
  intro acts
  induction acts with
  | nil => intro s _; simp [runActs]
  | cons a rest ih =>
    intro s h
    cases hr : stepRes env a s with
    | ok =>
      have heq : runActs env (a :: rest) s = runActs env rest (stepTr a s) := by
        rw [runActs, hr]
      rw [heq] at h ⊢
      rw [ih (stepTr a s) h, stepTr_events]
      simp
    | err e =>
      have heq : runActs env (a :: rest) s = (Except.error e, stepTr a s) := by
        rw [runActs, hr]
      rw [heq] at h
      simp at h

theorem runActs_mem (env : Env) :
    ∀ (acts : List Action) (s : Tr) (x : Action),
      x ∈ (runActs env acts s).2.events → x ∈ s.events ∨ x ∈ acts := by
  intro acts
  induction acts with
  | nil => intro s x hx; simp [runActs] at hx; exact Or.inl hx
  | cons a rest ih =>
    intro s x hx
    cases hr : stepRes env a s with
    | ok =>
      rw [show runActs env (a :: rest) s = runActs env rest (stepTr a s) from by
        rw [runActs, hr]] at hx
      rcases ih (stepTr a s) x hx with h | h
      · rw [stepTr_events] at h
        rcases List.mem_append.mp h with h | h
        · exact Or.inl h
        · simp at h; subst h; simp
      · simp [h]
    | err e =>
      rw [show runActs env (a :: rest) s = (Except.error e, stepTr a s) from by
        rw [runActs, hr]] at hx
      rw [stepTr_events] at hx
      rcases List.mem_append.mp hx with h | h
      · exact Or.inl h
      · simp at h; subst h; simp

theorem andThen_eq (r : Except String Unit × Tr) (f : Tr → Except String Unit × Tr) :
    (∃ e, r.1 = Except.error e ∧ andThen r f = r) ∨
    (r.1 = Except.ok () ∧ andThen r f = f r.2) := by
  rcases r with ⟨res, s1⟩
  cases res with
  | ok u => exact Or.inr ⟨rfl, rfl⟩
  | error e => exact Or.inl ⟨e, rfl, rfl⟩

theorem andThen_ok (r : Except String Unit × Tr) (f : Tr → Except String Unit × Tr)
    (h : (andThen r f).1 = Except.ok ()) :
    r.1 = Except.ok () ∧ andThen r f = f r.2 := by
  rcases andThen_eq r f with ⟨e, he, hr⟩ | ⟨hok, hr⟩
  · rw [hr] at h; rw [he] at h; simp at h
  · exact ⟨hok, hr⟩

theorem retry_mem (env : Env) (cmd : Action) (pat : String) (d : Nat) :
    ∀ (f : Nat) (s : Tr) (x : Action),
      x ∈ (retryCommand env cmd pat d f s).2.events →
      x ∈ s.events ∨ x = cmd ∨ x = Action.sleep d := by
  intro f
  induction f with
  | zero => intro s x hx; simp [retryCommand] at hx; exact Or.inl hx
  | succ n ih =>
    intro s x hx
    cases hr : stepRes env cmd s with
    | ok =>
      rw [show retryCommand env cmd pat d (n + 1) s = (Except.ok (), stepTr cmd s) from by
        rw [retryCommand, hr]] at hx
      rw [stepTr_events] at hx
      rcases List.mem_append.mp hx with h | h
      · exact Or.inl h
      · simp at h; exact Or.inr (Or.inl h)
    | err e =>
      by_cases hc : (matchesSubstr e pat && n != 0) = true
      · rw [show retryCommand env cmd pat d (n + 1) s
            = retryCommand env cmd pat d n (stepTr (Action.sleep d) (stepTr cmd s)) from by
          rw [retryCommand, hr]; simp [hc]] at hx
        rcases ih _ x hx with h | h
        · rw [stepTr_events, stepTr_events] at h
          rcases List.mem_append.mp h with h2 | h2
          · rcases List.mem_append.mp h2 with h3 | h3
            · exact Or.inl h3
            · simp at h3; exact Or.inr (Or.inl h3)
          · simp at h2; exact Or.inr (Or.inr h2)
        · exact Or.inr h
      · rw [show retryCommand env cmd pat d (n + 1) s = (Except.error e, stepTr cmd s) from by
          rw [retryCommand, hr]; simp [hc]] at hx
        rw [stepTr_events] at hx
        rcases List.mem_append.mp hx with h | h
        · exact Or.inl h
        · simp at h; exact Or.inr (Or.inl h)

theorem retry_ok_mem (env : Env) (cmd : Action) (pat : String) (d : Nat) :
    ∀ (f : Nat) (s : Tr),
      (retryCommand env cmd pat d f s).1 = Except.ok () →
      cmd ∈ (retryCommand env cmd pat d f s).2.events := by
  intro f
  induction f with
  | zero => intro s h; simp [retryCommand] at h
  | succ n ih =>
    intro s h
    cases hr : stepRes env cmd s with
    | ok =>
      rw [show retryCommand env cmd pat d (n + 1) s = (Except.ok (), stepTr cmd s) from by
        rw [retryCommand, hr]]
      rw [stepTr_events]; simp
    | err e =>
      by_cases hc : (matchesSubstr e pat && n != 0) = true
      · have heq : retryCommand env cmd pat d (n + 1) s
            = retryCommand env cmd pat d n (stepTr (Action.sleep d) (stepTr cmd s)) := by
          rw [retryCommand, hr]; simp [hc]
        rw [heq] at h ⊢
        exact ih _ h
      · have heq : retryCommand env cmd pat d (n + 1) s = (Except.error e, stepTr cmd s) := by
          rw [retryCommand, hr]; simp [hc]
        rw [heq] at h; simp at h

/-! ### Retry lemmas -/

theorem retry_ok_of (env : Env) (cmd : Action) (pat : String) (d : Nat)
    (hcmd : fallible cmd = true) :
    ∀ (m : Nat) (f : Nat) (s : Tr), m < f →
      (∀ k, k < m → ∃ e, env (s.clock + k) cmd = Res.err e ∧ matchesSubstr e pat = true) →
      env (s.clock + m) cmd = Res.ok →
      (retryCommand env cmd pat d f s).1 = Except.ok () ∧
      (retryCommand env cmd pat d f s).2.events
        = s.events ++ (List.replicate m ([cmd, Action.sleep d])).join ++ [cmd] := by
  intro m
  induction m with
  | zero =>
    intro f s hmf hk h0
    cases f with
    | zero => omega
    | succ n =>
      have hr : stepRes env cmd s = Res.ok := by
        rw [stepRes, if_pos hcmd]
        simpa using h0
      constructor
      · rw [retryCommand, hr]
      · rw [retryCommand, hr, stepTr_events]; simp
  | succ m ih =>
    intro f s hmf hk h0
    cases f with
    | zero => omega
    | succ n =>
      obtain ⟨e0, he0, hm0⟩ := hk 0 (Nat.succ_pos m)
      have hr : stepRes env cmd s = Res.err e0 := by
        rw [stepRes, if_pos hcmd]
        simpa using he0
      have hn : n ≠ 0 := by omega
      have hcond : (matchesSubstr e0 pat && n != 0) = true := by
        simp [hm0, hn]
      have heq : retryCommand env cmd pat d (n + 1) s
          = retryCommand env cmd pat d n (stepTr (Action.sleep d) (stepTr cmd s)) := by
        rw [retryCommand, hr]; simp [hcond]
      have hfs : fallible (Action.sleep d) = false := rfl
      have hclock : (stepTr (Action.sleep d) (stepTr cmd s)).clock = s.clock + 1 := by
        simp [stepTr, hcmd, hfs]
      have hev : (stepTr (Action.sleep d) (stepTr cmd s)).events
          = s.events ++ [cmd, Action.sleep d] := by
        rw [stepTr_events, stepTr_events]; simp
      have ihr := ih n (stepTr (Action.sleep d) (stepTr cmd s)) (by omega)
        (by
          intro k hkm
          obtain ⟨e, he, hme⟩ := hk (k + 1) (by omega)
          refine ⟨e, ?_, hme⟩
          rw [hclock]
          rw [show s.clock + 1 + k = s.clock + (k + 1) by omega]
          exact he)
        (by
          rw [hclock]
          rw [show s.clock + 1 + m = s.clock + (m + 1) by omega]
          exact h0)
      rw [heq]
      refine ⟨ihr.1, ?_⟩
      rw [ihr.2, hev]
      simp [List.replicate_succ]

theorem retry_first_err (env : Env) (cmd : Action) (pat : String) (d : Nat)
    (hcmd : fallible cmd = true) (n : Nat) (s : Tr) (e : String)
    (he : env s.clock cmd = Res.err e) (hm : matchesSubstr e pat = false) :
    retryCommand env cmd pat d (n + 1) s = (Except.error e, stepTr cmd s) := by
  have hr : stepRes env cmd s = Res.err e := by
    rw [stepRes, if_pos hcmd]; exact he
  rw [retryCommand, hr]
  simp [hm]

theorem retry_exhaust (env : Env) (cmd : Action) (pat : String) (d : Nat)
    (hcmd : fallible cmd = true) :
    ∀ (f : Nat) (errs : Nat → String) (s : Tr), 0 < f →
      (∀ k, k < f → env (s.clock + k) cmd = Res.err (errs k) ∧
        matchesSubstr (errs k) pat = true) →
      (retryCommand env cmd pat d f s).1 = Except.error (errs (f - 1)) ∧
      (retryCommand env cmd pat d f s).2.events
        = s.events ++ (List.replicate (f - 1) ([cmd, Action.sleep d])).join ++ [cmd] := by
  intro f
  induction f with
  | zero => intro errs s h; omega
  | succ n ih =>
    intro errs s _ hk
    obtain ⟨he0, hm0⟩ := hk 0 (Nat.succ_pos n)
    have hr : stepRes env cmd s = Res.err (errs 0) := by
      rw [stepRes, if_pos hcmd]
      simpa using he0
    cases n with
    | zero =>
      have hcond0 : (matchesSubstr (errs 0) pat && (0 != 0)) = false := by simp
      have heq : retryCommand env cmd pat d 1 s = (Except.error (errs 0), stepTr cmd s) := by
        rw [retryCommand, hr]; simp [hcond0]
      rw [heq, stepTr_events]
      simp
    | succ n1 =>
      have hcond : (matchesSubstr (errs 0) pat && (n1 + 1) != 0) = true := by
        simp [hm0]
      have heq : retryCommand env cmd pat d (n1 + 1 + 1) s
          = retryCommand env cmd pat d (n1 + 1) (stepTr (Action.sleep d) (stepTr cmd s)) := by
        rw [retryCommand, hr]; simp [hm0]
      have hfs : fallible (Action.sleep d) = false := rfl
      have hclock : (stepTr (Action.sleep d) (stepTr cmd s)).clock = s.clock + 1 := by
        simp [stepTr, hcmd, hfs]
      have hev : (stepTr (Action.sleep d) (stepTr cmd s)).events
          = s.events ++ [cmd, Action.sleep d] := by
        rw [stepTr_events, stepTr_events]; simp
      have ihr := ih (fun k => errs (k + 1)) (stepTr (Action.sleep d) (stepTr cmd s))
        (Nat.succ_pos n1)
        (by
          intro k hkn
          have := hk (k + 1) (by omega)
          rw [hclock]
          rw [show s.clock + 1 + k = s.clock + (k + 1) by omega]
          exact this)
      rw [heq]
      constructor
      · rw [ihr.1]
        norm_num
      · rw [ihr.2, hev]
        rw [show n1 + 1 + 1 - 1 = (n1 + 1 - 1) + 1 by omega]
        simp [List.replicate_succ]

theorem count_join_replicate_pair (x y : Action) (hxy : x ≠ y) :
    ∀ m : Nat, ((List.replicate m ([x, y])).join).count x = m := by
  intro m
  induction m with
  | zero => simp
  | succ n ih =>
    rw [List.replicate_succ]
    simp [List.count_cons, ih, hxy, Ne.symm hxy]

/-! ### Decorator lemmas -/

theorem decorator_ok (body : Tr → Except String Unit × Tr) (s : Tr)
    (h : (restore_vanilla_on_error body s).1 = Except.ok ()) :
    restore_vanilla_on_error body s = body s ∧ (body s).1 = Except.ok () := by
  rcases hb : body s with ⟨r, s1⟩
  cases r with
  | ok u =>
    cases u
    constructor
    · rw [restore_vanilla_on_error, hb]
    · rfl
  | error e =>
    rw [restore_vanilla_on_error, hb] at h
    simp at h

theorem decorator_error (body : Tr → Except String Unit × Tr) (s : Tr) (e : String)
    (h : (body s).1 = Except.error e) :
    restore_vanilla_on_error body s
      = (Except.error e, stepTr Action.restoreVanilla (body s).2) := by
  rcases hb : body s with ⟨r, s1⟩
  cases r with
  | ok u => rw [hb] at h; simp at h
  | error e1 =>
    rw [hb] at h
    simp at h
    subst h
    rw [restore_vanilla_on_error, hb]

theorem decorator_error_rev (body : Tr → Except String Unit × Tr) (s : Tr) (e : String)
    (h : (restore_vanilla_on_error body s).1 = Except.error e) :
    (body s).1 = Except.error e := by
  rcases hb : body s with ⟨r, s1⟩
  cases r with
  | ok u => rw [restore_vanilla_on_error, hb] at h; simp at h
  | error e1 =>
    rw [restore_vanilla_on_error, hb] at h
    simp at h
    subst h
    rfl

/-! ### Concrete fixtures used by the witnesses -/

/-- A concrete client host. -/
def wClient : Host := ⟨"client.test", "client.test", "pw1"⟩

/-- A concrete IPA host. -/
def wIpa : Host := ⟨"master.ipa.test", "ipa.test", "pw2"⟩

/-- A concrete AD host. -/
def wAd : Host := ⟨"dc.ad.test", "ad.test", "pw3"⟩

/-- A concrete second IPA host for the IPA-IPA trust. -/
def wIpa2 : Host := ⟨"master.ipa2.test", "ipa2.test", "pw4"⟩

/-- A controller whose topology is already provisioned. -/
def cProv : Controller := ⟨"ipa", true, ["ipa"]⟩

/-- A non-provisioned controller with nothing pre-provisioned. -/
def cNon : Controller := ⟨"ipa", false, []⟩

/-- A non-provisioned trust controller with "ipa" externally provisioned. -/
def cSkip : Controller := ⟨"ipa-trust-ad", false, ["ipa"]⟩

/-- An environment where every remote step succeeds. -/
def envOK : Env := fun _ _ => Res.ok

/-- An environment where every remote step fails with stderr "boom". -/
def envBoom : Env := fun _ _ => Res.err "boom"

/-- An environment failing with the transient CIFS error on the first two
fallible steps and succeeding afterwards. -/
def envCifs : Env := fun k _ => if k < 2 then Res.err cifsMatch else Res.ok

/-! ### Claims -/

/-- Claim C1: for every topology controller whose provisioned flag is set, invoking
`topology_setup` logs one message and returns successfully at once: the only
appended trace event is the log (so no filesystem removal, no backup, no join
and no trust command is issued) and the backup-snapshot mapping derived from
the trace is unchanged. -/
theorem claim_C1 :
    (∀ (env : Env) (c : Controller) (client ipa : Host) (s : Tr),
      c.provisioned = true →
      IPATopologyController.topology_setup env c client ipa s
        = (Except.ok (), stepTr (provisionedLog c) s) ∧
      (stepTr (provisionedLog c) s).events = s.events ++ [provisionedLog c] ∧
      backupHosts (stepTr (provisionedLog c) s).events = backupHosts s.events) ∧
    (∀ (env : Env) (c : Controller) (client provider : Host) (s : Tr),
      c.provisioned = true →
      ADTopologyController.topology_setup env c client provider s
        = (Except.ok (), stepTr (provisionedLog c) s)) ∧
    (∀ (env : Env) (c : Controller) (client ipa trusted : Host) (s : Tr),
      c.provisioned = true →
      IPATrustADTopologyController.topology_setup env c client ipa trusted s
        = (Except.ok (), stepTr (provisionedLog c) s)) ∧
    (∀ (env : Env) (c : Controller) (client ipa trusted : Host) (s : Tr),
      c.provisioned = true →
      IPATrustIPATopologyController.topology_setup env c client ipa trusted s
        = (Except.ok (), stepTr (provisionedLog c) s)) := by
  refine ⟨?_, ?_, ?_, ?_⟩
  · intro env c client ipa s h
    have hb : IPATopologyController.setupBody env c client ipa s
        = (Except.ok (), stepTr (provisionedLog c) s) := by
      rw [IPATopologyController.setupBody, if_pos h]
    refine ⟨?_, stepTr_events _ _, ?_⟩
    · simp only [IPATopologyController.topology_setup, restore_vanilla_on_error, hb]
    · rw [stepTr_events, backupHosts_append]
      simp [backupHosts, provisionedLog]
  · intro env c client provider s h
    have hb : ADTopologyController.setupBody env c client provider s
        = (Except.ok (), stepTr (provisionedLog c) s) := by
      rw [ADTopologyController.setupBody, if_pos h]
    simp only [ADTopologyController.topology_setup, restore_vanilla_on_error, hb]
  · intro env c client ipa trusted s h
    have hb : IPATrustADTopologyController.setupBody env c client ipa trusted s
        = (Except.ok (), stepTr (provisionedLog c) s) := by
      rw [IPATrustADTopologyController.setupBody, if_pos h]
    simp only [IPATrustADTopologyController.topology_setup, restore_vanilla_on_error, hb]
  · intro env c client ipa trusted s h
    have hb : IPATrustIPATopologyController.setupBody env c client ipa trusted s
        = (Except.ok (), stepTr (provisionedLog c) s) := by
      rw [IPATrustIPATopologyController.setupBody, if_pos h]
    simp only [IPATrustIPATopologyController.topology_setup, restore_vanilla_on_error, hb]

/-- Witness for C1 at a concrete provisioned controller. -/
theorem claim_C1_witness :
    (IPATopologyController.topology_setup envOK cProv wClient wIpa Tr.empty
      = (Except.ok (), stepTr (provisionedLog cProv) Tr.empty) ∧
     (stepTr (provisionedLog cProv) Tr.empty).events = Tr.empty.events ++ [provisionedLog cProv] ∧
     backupHosts (stepTr (provisionedLog cProv) Tr.empty).events = backupHosts Tr.empty.events) ∧
    IPATrustIPATopologyController.topology_setup envOK cProv wClient wIpa wIpa2 Tr.empty
      = (Except.ok (), stepTr (provisionedLog cProv) Tr.empty) :=
  ⟨claim_C1.1 envOK cProv wClient wIpa Tr.empty rfl,
   claim_C1.2.2.2 envOK cProv wClient wIpa wIpa2 Tr.empty rfl⟩

/-- Claim C6: teardown behaviour is decided solely by the provisioned flag: when
provisioned, per-test `teardown` restores the vanilla snapshot and
`topology_teardown` does nothing; when not provisioned, both delegate to the
inherited teardown paths. -/
theorem claim_C6 (c : Controller) :
    (c.provisioned = true →
      ProvisionedBackupTopologyController.topology_teardown c = [] ∧
      ProvisionedBackupTopologyController.teardown c = [Action.restoreVanilla]) ∧
    (c.provisioned = false →
      ProvisionedBackupTopologyController.topology_teardown c = [Action.topologyTeardownSuper] ∧
      ProvisionedBackupTopologyController.teardown c = [Action.teardownSuper]) := by
  constructor <;> intro h <;>
    simp [ProvisionedBackupTopologyController.topology_teardown,
      ProvisionedBackupTopologyController.teardown, h]

/-- Witness for C6 at a provisioned and a non-provisioned controller. -/
theorem claim_C6_witness :
    ProvisionedBackupTopologyController.topology_teardown cProv = [] ∧
    ProvisionedBackupTopologyController.teardown cProv = [Action.restoreVanilla] ∧
    ProvisionedBackupTopologyController.topology_teardown cNon = [Action.topologyTeardownSuper] ∧
    ProvisionedBackupTopologyController.teardown cNon = [Action.teardownSuper] :=
  ⟨((claim_C6 cProv).1 rfl).1, ((claim_C6 cProv).1 rfl).2,
   ((claim_C6 cNon).2 rfl).1, ((claim_C6 cNon).2 rfl).2⟩

/-- Claim C9: the Samba controller's setup and the IPA-trusts-Samba controller's
setup and retry-wrapped trust-add agree with the AD counterparts on every
input (empty subclass bodies), and the LDAP and plain client controllers have
exactly the base provisioned/backup behaviour with a join-free inherited
setup. -/
theorem claim_C9 :
    (∀ (env : Env) (c : Controller) (client provider : Host) (s : Tr),
      SambaTopologyController.topology_setup env c client provider s
        = ADTopologyController.topology_setup env c client provider s) ∧
    (∀ (env : Env) (c : Controller) (client ipa trusted : Host) (s : Tr),
      IPATrustSambaTopologyController.topology_setup env c client ipa trusted s
        = IPATrustADTopologyController.topology_setup env c client ipa trusted s) ∧
    (∀ (env : Env) (ipa trusted : Host) (s : Tr),
      IPATrustSambaTopologyController.trust_add env ipa trusted s
        = IPATrustADTopologyController.trust_add env ipa trusted s) ∧
    (∀ c : Controller,
      LDAPTopologyController.teardown c = ProvisionedBackupTopologyController.teardown c ∧
      LDAPTopologyController.topology_teardown c
        = ProvisionedBackupTopologyController.topology_teardown c ∧
      ClientTopologyController.teardown c = ProvisionedBackupTopologyController.teardown c ∧
      ClientTopologyController.topology_teardown c
        = ProvisionedBackupTopologyController.topology_teardown c) ∧
    (∀ (env : Env) (hosts : List String) (s : Tr),
      LDAPTopologyController.topology_setup env hosts s
        = runActs env [Action.snapshotAll hosts] s ∧
      ClientTopologyController.topology_setup env hosts s
        = runActs env [Action.snapshotAll hosts] s) :=
  ⟨fun _ _ _ _ _ => rfl, fun _ _ _ _ _ _ => rfl, fun _ _ _ _ => rfl,
   fun _ => ⟨rfl, rfl, rfl, rfl⟩, fun _ _ _ => ⟨rfl, rfl⟩⟩

/-- Claim C10: the provisioned flag is `false` at construction and becomes `true`
exactly when `init` runs and the controller's name is in the externally
supplied provisioned-topology set; a freshly constructed controller behaves as
non-provisioned (inherited teardown paths, non-provisioned setup branch). -/
theorem claim_C10 :
    (∀ name : String,
      (ProvisionedBackupTopologyController.new name).provisioned = false) ∧
    (∀ (c : Controller) (pt : List String),
      (ProvisionedBackupTopologyController.init c pt).provisioned = true ↔ c.name ∈ pt) ∧
    (∀ name : String,
      ProvisionedBackupTopologyController.teardown
          (ProvisionedBackupTopologyController.new name) = [Action.teardownSuper] ∧
      ProvisionedBackupTopologyController.topology_teardown
          (ProvisionedBackupTopologyController.new name) = [Action.topologyTeardownSuper]) ∧
    (∀ (env : Env) (name : String) (client ipa : Host) (s : Tr),
      IPATopologyController.setupBody env (ProvisionedBackupTopologyController.new name)
          client ipa s
        = runActs env (IPATopologyController.setupActs client ipa) s) := by
  refine ⟨fun name => rfl, fun c pt => ?_, fun name => ⟨rfl, rfl⟩,
    fun env name client ipa s => rfl⟩
  simp [ProvisionedBackupTopologyController.init]

/-- Claim C4: for every non-provisioned IPA topology, a successful `topology_setup`
performs exactly these steps in this order: log, remove `/etc/krb5.conf` and
`/etc/krb5.keytab` on the client, back up `/etc/ipa` and `/var/lib/ipa-client`
on the client, run `realm join` on the client with the IPA admin password on
stdin, and finally the inherited snapshot step. -/
theorem claim_C4 (env : Env) (c : Controller) (client ipa : Host)
    (hnp : c.provisioned = false)
    (hok : (IPATopologyController.topology_setup env c client ipa Tr.empty).1 = Except.ok ()) :
    (IPATopologyController.topology_setup env c client ipa Tr.empty).2.events
      = [ Action.log ("Enrolling " ++ client.hostname ++ " into " ++ ipa.domain),
          Action.rm client.hostname "/etc/krb5.conf",
          Action.rm client.hostname "/etc/krb5.keytab",
          Action.backupPath client.hostname "/etc/ipa",
          Action.backupPath client.hostname "/var/lib/ipa-client",
          Action.exec client.hostname ["realm", "join", ipa.domain] (some ipa.adminpw),
          Action.snapshotAll [client.hostname, ipa.hostname] ] := by
  have hnp' : ¬ c.provisioned = true := by simp [hnp]
  rw [IPATopologyController.topology_setup] at hok ⊢
  obtain ⟨heq, hbok⟩ := decorator_ok _ _ hok
  rw [heq]
  rw [IPATopologyController.setupBody, if_neg hnp'] at hbok ⊢
  rw [runActs_ok_events env _ _ hbok]
  simp [Tr.empty, IPATopologyController.setupActs, ipaJoinActs]

/-- Witness for C4: with an all-success environment and a non-provisioned
controller, the IPA setup trace is exactly the claimed action list. -/
theorem claim_C4_witness :
    (IPATopologyController.topology_setup envOK cNon wClient wIpa Tr.empty).2.events
      = [ Action.log ("Enrolling " ++ wClient.hostname ++ " into " ++ wIpa.domain),
          Action.rm wClient.hostname "/etc/krb5.conf",
          Action.rm wClient.hostname "/etc/krb5.keytab",
          Action.backupPath wClient.hostname "/etc/ipa",
          Action.backupPath wClient.hostname "/var/lib/ipa-client",
          Action.exec wClient.hostname ["realm", "join", wIpa.domain] (some wIpa.adminpw),
          Action.snapshotAll [wClient.hostname, wIpa.hostname] ] :=
  claim_C4 envOK cNon wClient wIpa rfl rfl

/-- Claim C7: for every non-provisioned IPA-trusts-IPA setup that succeeds, before
the trust-creation command the COPR repository is enabled and packages are
updated on all three hosts and sssd-kcm is restarted on both IPA realms, and
the trust-creation command requests `--range-type=ipa-ad-trust-posix`,
`--type=ipa` and `--two-way=true` explicitly. -/
theorem claim_C7 (env : Env) (c : Controller) (client ipa trusted : Host)
    (hnp : c.provisioned = false)
    (hok : (IPATrustIPATopologyController.topology_setup env c client ipa trusted Tr.empty).1
      = Except.ok ()) :
    (IPATrustIPATopologyController.topology_setup env c client ipa trusted Tr.empty).2.events
      = [ Action.log "Adding COPR and updating packages",
          Action.exec ipa.hostname ["dnf", "copr", "enable", "abbra/wip-ipa-trust", "-y"] none,
          Action.exec client.hostname ["dnf", "copr", "enable", "abbra/wip-ipa-trust", "-y"] none,
          Action.exec trusted.hostname ["dnf", "copr", "enable", "abbra/wip-ipa-trust", "-y"] none,
          Action.exec ipa.hostname ["dnf", "update", "freeipa-server", "sssd-client", "-y"] none,
          Action.exec trusted.hostname ["dnf", "update", "freeipa-server", "sssd-client", "-y"] none,
          Action.exec client.hostname ["dnf", "update", "sssd-client", "-y"] none,
          Action.exec ipa.hostname ["systemctl", "restart", "sssd-kcm"] none,
          Action.exec trusted.hostname ["systemctl", "restart", "sssd-kcm"] none,
          Action.log ("Establishing trust between " ++ ipa.domain ++ " and " ++ trusted.domain),
          Action.kinit ipa.hostname,
          Action.exec ipa.hostname
            ["ipa", "trust-add", trusted.domain, "--admin", "admin", "--password",
             "--range-type=ipa-ad-trust-posix", "--type=ipa", "--two-way=true"]
            (some trusted.adminpw) ]
        ++ joinIfNeeded c client ipa
        ++ [Action.backupHost ipa.hostname, Action.backupHost trusted.hostname,
            Action.backupHost client.hostname] := by
  have hnp' : ¬ c.provisioned = true := by simp [hnp]
  rw [IPATrustIPATopologyController.topology_setup] at hok ⊢
  obtain ⟨heq, hbok⟩ := decorator_ok _ _ hok
  rw [heq]
  rw [IPATrustIPATopologyController.setupBody, if_neg hnp'] at hbok ⊢
  rw [runActs_ok_events env _ _ hbok]
  simp [Tr.empty, IPATrustIPATopologyController.setupActs,
    IPATrustIPATopologyController.preTrustActs, ipaIpaTrustCmd]

/-- Witness for C7 at a concrete all-success environment. -/
theorem claim_C7_witness :
    (IPATrustIPATopologyController.topology_setup envOK cNon wClient wIpa wIpa2 Tr.empty).2.events
      = [ Action.log "Adding COPR and updating packages",
          Action.exec wIpa.hostname ["dnf", "copr", "enable", "abbra/wip-ipa-trust", "-y"] none,
          Action.exec wClient.hostname ["dnf", "copr", "enable", "abbra/wip-ipa-trust", "-y"] none,
          Action.exec wIpa2.hostname ["dnf", "copr", "enable", "abbra/wip-ipa-trust", "-y"] none,
          Action.exec wIpa.hostname ["dnf", "update", "freeipa-server", "sssd-client", "-y"] none,
          Action.exec wIpa2.hostname ["dnf", "update", "freeipa-server", "sssd-client", "-y"] none,
          Action.exec wClient.hostname ["dnf", "update", "sssd-client", "-y"] none,
          Action.exec wIpa.hostname ["systemctl", "restart", "sssd-kcm"] none,
          Action.exec wIpa2.hostname ["systemctl", "restart", "sssd-kcm"] none,
          Action.log ("Establishing trust between " ++ wIpa.domain ++ " and " ++ wIpa2.domain),
          Action.kinit wIpa.hostname,
          Action.exec wIpa.hostname
            ["ipa", "trust-add", wIpa2.domain, "--admin", "admin", "--password",
             "--range-type=ipa-ad-trust-posix", "--type=ipa", "--two-way=true"]
            (some wIpa2.adminpw) ]
        ++ joinIfNeeded cNon wClient wIpa
        ++ [Action.backupHost wIpa.hostname, Action.backupHost wIpa2.hostname,
            Action.backupHost wClient.hostname] :=
  claim_C7 envOK cNon wClient wIpa wIpa2 rfl rfl

/-- A successful non-provisioned IPA-trusts-AD setup decomposes into the trace
of the phases before the conditional join (which contains the trust-add
command) followed by the conditional join and the snapshot step. -/
theorem trustAD_ok_shape (env : Env) (c : Controller) (client ipa trusted : Host)
    (hnp : c.provisioned = false)
    (hok : (IPATrustADTopologyController.topology_setup env c client ipa trusted Tr.empty).1
      = Except.ok ()) :
    ∃ s3 : Tr,
      (IPATrustADTopologyController.topology_setup env c client ipa trusted Tr.empty).2.events
        = s3.events ++ (joinIfNeeded c client ipa
            ++ [Action.snapshotAll [client.hostname, ipa.hostname, trusted.hostname]]) ∧
      trustAddCmd ipa trusted ∈ s3.events := by
  have hnp' : ¬ c.provisioned = true := by simp [hnp]
  rw [IPATrustADTopologyController.topology_setup] at hok ⊢
  obtain ⟨heq, hbok⟩ := decorator_ok _ _ hok
  rw [heq]
  rw [IPATrustADTopologyController.setupBody, if_neg hnp'] at hbok ⊢
  obtain ⟨h1ok, he1⟩ := andThen_ok _ _ hbok
  rw [he1] at hbok ⊢
  obtain ⟨h2ok, he2⟩ := andThen_ok _ _ hbok
  rw [he2] at hbok ⊢
  refine ⟨_, runActs_ok_events env _ _ hbok, ?_⟩
  rw [IPATrustADTopologyController.trust_add] at h2ok ⊢
  exact retry_ok_mem env (trustAddCmd ipa trusted) cifsMatch 5 20 _ h2ok

/-- Every event of the (undecorated) IPA-trusts-AD setup body is the
provisioned log, the establishing log, the kinit, a trust-add attempt, an
inter-attempt sleep, a conditional-join action or the snapshot step. -/
theorem trustAD_body_mem (env : Env) (c : Controller) (client ipa trusted : Host) :
    ∀ x ∈ (IPATrustADTopologyController.setupBody env c client ipa trusted Tr.empty).2.events,
      x = provisionedLog c ∨
      x = Action.log ("Establishing trust between " ++ ipa.domain ++ " and " ++ trusted.domain) ∨
      x = Action.kinit ipa.hostname ∨
      x = trustAddCmd ipa trusted ∨
      x = Action.sleep 5 ∨
      x ∈ joinIfNeeded c client ipa ∨
      x = Action.snapshotAll [client.hostname, ipa.hostname, trusted.hostname] := by
  intro x hx
  rw [IPATrustADTopologyController.setupBody] at hx
  split at hx
  · rw [stepTr_events] at hx
    simp [Tr.empty] at hx
    exact Or.inl hx
  · rcases andThen_eq
        (runActs env
          [ Action.log ("Establishing trust between " ++ ipa.domain ++ " and " ++ trusted.domain),
            Action.kinit ipa.hostname ] Tr.empty) _ with ⟨e, _, hr⟩ | ⟨_, hr⟩
    all_goals rw [hr] at hx
    · rcases runActs_mem env _ _ x hx with h | h
      · simp [Tr.empty] at h
      · simp at h
        rcases h with h | h
        · exact Or.inr (Or.inl h)
        · exact Or.inr (Or.inr (Or.inl h))
    · rcases andThen_eq (IPATrustADTopologyController.trust_add env ipa trusted _) _ with
        ⟨e, _, hr2⟩ | ⟨_, hr2⟩
      all_goals rw [hr2] at hx
      · rw [IPATrustADTopologyController.trust_add] at hx
        rcases retry_mem env _ _ _ _ _ x hx with h | h | h
        · rcases runActs_mem env _ _ x h with h2 | h2
          · simp [Tr.empty] at h2
          · simp at h2
            rcases h2 with h2 | h2
            · exact Or.inr (Or.inl h2)
            · exact Or.inr (Or.inr (Or.inl h2))
        · exact Or.inr (Or.inr (Or.inr (Or.inl h)))
        · exact Or.inr (Or.inr (Or.inr (Or.inr (Or.inl h))))
      · rcases runActs_mem env _ _ x hx with h | h
        · rw [IPATrustADTopologyController.trust_add] at h
          rcases retry_mem env _ _ _ _ _ x h with h2 | h2 | h2
          · rcases runActs_mem env _ _ x h2 with h3 | h3
            · simp [Tr.empty] at h3
            · simp at h3
              rcases h3 with h3 | h3
              · exact Or.inr (Or.inl h3)
              · exact Or.inr (Or.inr (Or.inl h3))
          · exact Or.inr (Or.inr (Or.inr (Or.inl h2)))
          · exact Or.inr (Or.inr (Or.inr (Or.inr (Or.inl h2))))
        · rcases List.mem_append.mp h with h2 | h2
          · exact Or.inr (Or.inr (Or.inr (Or.inr (Or.inr (Or.inl h2)))))
          · simp at h2
            exact Or.inr (Or.inr (Or.inr (Or.inr (Or.inr (Or.inr h2)))))

/-- The conditional join never contains the restore action. -/
theorem joinIfNeeded_no_restore (c : Controller) (client ipa : Host) :
    Action.restoreVanilla ∉ joinIfNeeded c client ipa := by
  rw [joinIfNeeded]
  split <;> simp [ipaJoinActs]

/-- The IPA setup body never performs a restore itself. -/
theorem ipa_body_no_restore (env : Env) (c : Controller) (client ipa : Host) :
    Action.restoreVanilla ∉ (IPATopologyController.setupBody env c client ipa Tr.empty).2.events := by
  intro hx
  rw [IPATopologyController.setupBody] at hx
  split at hx
  · rw [stepTr_events] at hx
    simp [Tr.empty, provisionedLog] at hx
  · rcases runActs_mem env _ _ _ hx with h | h
    · simp [Tr.empty] at h
    · simp [IPATopologyController.setupActs, ipaJoinActs] at h

/-- The AD setup body never performs a restore itself. -/
theorem ad_body_no_restore (env : Env) (c : Controller) (client provider : Host) :
    Action.restoreVanilla ∉ (ADTopologyController.setupBody env c client provider Tr.empty).2.events := by
  intro hx
  rw [ADTopologyController.setupBody] at hx
  split at hx
  · rw [stepTr_events] at hx
    simp [Tr.empty, provisionedLog] at hx
  · rcases runActs_mem env _ _ _ hx with h | h
    · simp [Tr.empty] at h
    · simp [ADTopologyController.setupActs] at h

/-- The IPA-trusts-AD setup body never performs a restore itself. -/
theorem trustAD_body_no_restore (env : Env) (c : Controller) (client ipa trusted : Host) :
    Action.restoreVanilla
      ∉ (IPATrustADTopologyController.setupBody env c client ipa trusted Tr.empty).2.events := by
  intro hx
  rcases trustAD_body_mem env c client ipa trusted _ hx with
    h | h | h | h | h | h | h
  · simp [provisionedLog] at h
  · simp at h
  · simp at h
  · simp [trustAddCmd] at h
  · simp at h
  · exact joinIfNeeded_no_restore c client ipa h
  · simp at h

/-- The IPA-trusts-IPA setup body never performs a restore itself. -/
theorem trustIPA_body_no_restore (env : Env) (c : Controller) (client ipa trusted : Host) :
    Action.restoreVanilla
      ∉ (IPATrustIPATopologyController.setupBody env c client ipa trusted Tr.empty).2.events := by
  intro hx
  rw [IPATrustIPATopologyController.setupBody] at hx
  split at hx
  · rw [stepTr_events] at hx
    simp [Tr.empty, provisionedLog] at hx
  · rcases runActs_mem env _ _ _ hx with h | h
    · simp [Tr.empty] at h
    · rw [IPATrustIPATopologyController.setupActs] at h
      rcases List.mem_append.mp h with h2 | h2
      · rcases List.mem_append.mp h2 with h3 | h3
        · simp [IPATrustIPATopologyController.preTrustActs, ipaIpaTrustCmd] at h3
        · exact joinIfNeeded_no_restore c client ipa h3
      · simp at h2

/-- Claim C3: for every controller with a setup routine (IPA, AD, IPA-trusts-AD,
IPA-trusts-IPA), if `topology_setup` raises, the body's error is re-raised
unchanged, the trace is the body's trace followed by exactly one
restore-to-vanilla, and the restore occurs exactly once. -/
theorem claim_C3 :
    (∀ (env : Env) (c : Controller) (client ipa : Host) (e : String),
      (IPATopologyController.topology_setup env c client ipa Tr.empty).1 = Except.error e →
      (IPATopologyController.setupBody env c client ipa Tr.empty).1 = Except.error e ∧
      (IPATopologyController.topology_setup env c client ipa Tr.empty).2.events
        = (IPATopologyController.setupBody env c client ipa Tr.empty).2.events
          ++ [Action.restoreVanilla] ∧
      ((IPATopologyController.topology_setup env c client ipa Tr.empty).2.events.count
        Action.restoreVanilla) = 1) ∧
    (∀ (env : Env) (c : Controller) (client provider : Host) (e : String),
      (ADTopologyController.topology_setup env c client provider Tr.empty).1 = Except.error e →
      (ADTopologyController.setupBody env c client provider Tr.empty).1 = Except.error e ∧
      (ADTopologyController.topology_setup env c client provider Tr.empty).2.events
        = (ADTopologyController.setupBody env c client provider Tr.empty).2.events
          ++ [Action.restoreVanilla] ∧
      ((ADTopologyController.topology_setup env c client provider Tr.empty).2.events.count
        Action.restoreVanilla) = 1) ∧
    (∀ (env : Env) (c : Controller) (client ipa trusted : Host) (e : String),
      (IPATrustADTopologyController.topology_setup env c client ipa trusted Tr.empty).1
        = Except.error e →
      (IPATrustADTopologyController.setupBody env c client ipa trusted Tr.empty).1
        = Except.error e ∧
      (IPATrustADTopologyController.topology_setup env c client ipa trusted Tr.empty).2.events
        = (IPATrustADTopologyController.setupBody env c client ipa trusted Tr.empty).2.events
          ++ [Action.restoreVanilla] ∧
      ((IPATrustADTopologyController.topology_setup env c client ipa trusted
          Tr.empty).2.events.count Action.restoreVanilla) = 1) ∧
    (∀ (env : Env) (c : Controller) (client ipa trusted : Host) (e : String),
      (IPATrustIPATopologyController.topology_setup env c client ipa trusted Tr.empty).1
        = Except.error e →
      (IPATrustIPATopologyController.setupBody env c client ipa trusted Tr.empty).1
        = Except.error e ∧
      (IPATrustIPATopologyController.topology_setup env c client ipa trusted Tr.empty).2.events
        = (IPATrustIPATopologyController.setupBody env c client ipa trusted Tr.empty).2.events
          ++ [Action.restoreVanilla] ∧
      ((IPATrustIPATopologyController.topology_setup env c client ipa trusted
          Tr.empty).2.events.count Action.restoreVanilla) = 1) := by
  refine ⟨?_, ?_, ?_, ?_⟩
  · intro env c client ipa e h
    rw [IPATopologyController.topology_setup] at h ⊢
    have hb := decorator_error_rev _ _ _ h
    have hd := decorator_error _ _ _ hb
    refine ⟨hb, ?_, ?_⟩
    · rw [hd, stepTr_events]
    · rw [hd, stepTr_events, List.count_append]
      rw [List.count_eq_zero.mpr (ipa_body_no_restore env c client ipa)]
      simp
  · intro env c client provider e h
    rw [ADTopologyController.topology_setup] at h ⊢
    have hb := decorator_error_rev _ _ _ h
    have hd := decorator_error _ _ _ hb
    refine ⟨hb, ?_, ?_⟩
    · rw [hd, stepTr_events]
    · rw [hd, stepTr_events, List.count_append]
      rw [List.count_eq_zero.mpr (ad_body_no_restore env c client provider)]
      simp
  · intro env c client ipa trusted e h
    rw [IPATrustADTopologyController.topology_setup] at h ⊢
    have hb := decorator_error_rev _ _ _ h
    have hd := decorator_error _ _ _ hb
    refine ⟨hb, ?_, ?_⟩
    · rw [hd, stepTr_events]
    · rw [hd, stepTr_events, List.count_append]
      rw [List.count_eq_zero.mpr (trustAD_body_no_restore env c client ipa trusted)]
      simp
  · intro env c client ipa trusted e h
    rw [IPATrustIPATopologyController.topology_setup] at h ⊢
    have hb := decorator_error_rev _ _ _ h
    have hd := decorator_error _ _ _ hb
    refine ⟨hb, ?_, ?_⟩
    · rw [hd, stepTr_events]
    · rw [hd, stepTr_events, List.count_append]
      rw [List.count_eq_zero.mpr (trustIPA_body_no_restore env c client ipa trusted)]
      simp

/-- Witness for C3: with an all-failing environment, the IPA setup fails with
the first step's stderr, rolls back once, and re-raises that error. -/
theorem claim_C3_witness :
    (IPATopologyController.setupBody envBoom cNon wClient wIpa Tr.empty).1
      = Except.error "boom" ∧
    (IPATopologyController.topology_setup envBoom cNon wClient wIpa Tr.empty).2.events
      = (IPATopologyController.setupBody envBoom cNon wClient wIpa Tr.empty).2.events
        ++ [Action.restoreVanilla] ∧
    ((IPATopologyController.topology_setup envBoom cNon wClient wIpa Tr.empty).2.events.count
      Action.restoreVanilla) = 1 :=
  claim_C3.1 envBoom cNon wClient wIpa "boom" rfl

/-- The decorated trace is either the body trace or the body trace followed
by the single rollback restore. -/
theorem decorated_events (body : Tr → Except String Unit × Tr) (s : Tr) :
    (restore_vanilla_on_error body s).2.events = (body s).2.events ∨
    (restore_vanilla_on_error body s).2.events
      = (body s).2.events ++ [Action.restoreVanilla] := by
  rcases hb : body s with ⟨r, s1⟩
  cases r with
  | ok u => left; rw [restore_vanilla_on_error, hb]
  | error e => right; rw [restore_vanilla_on_error, hb, stepTr_events]

/-- Claim C5: during setup of a non-provisioned trust topology with "ipa" in the
externally-provisioned set, no client IPA-join action (krb5 removal,
ipa-client backups, client `realm join`) ever appears in the trace, while on
success the trust-creation command is still issued. -/
theorem claim_C5 :
    (∀ (env : Env) (c : Controller) (client ipa trusted : Host),
      c.provisioned = false → "ipa" ∈ c.provisionedTopologies →
      (∀ x ∈ (IPATrustADTopologyController.topology_setup env c client ipa trusted
          Tr.empty).2.events, ¬ isJoinAction client ipa x) ∧
      ((IPATrustADTopologyController.topology_setup env c client ipa trusted Tr.empty).1
          = Except.ok () →
        trustAddCmd ipa trusted
          ∈ (IPATrustADTopologyController.topology_setup env c client ipa trusted
              Tr.empty).2.events)) ∧
    (∀ (env : Env) (c : Controller) (client ipa trusted : Host),
      c.provisioned = false → "ipa" ∈ c.provisionedTopologies →
      (∀ x ∈ (IPATrustIPATopologyController.topology_setup env c client ipa trusted
          Tr.empty).2.events, ¬ isJoinAction client ipa x) ∧
      ((IPATrustIPATopologyController.topology_setup env c client ipa trusted Tr.empty).1
          = Except.ok () →
        ipaIpaTrustCmd ipa trusted
          ∈ (IPATrustIPATopologyController.topology_setup env c client ipa trusted
              Tr.empty).2.events)) := by
  constructor
  · intro env c client ipa trusted hnp hskip
    have hjoin : joinIfNeeded c client ipa = [] := by
      rw [joinIfNeeded, if_pos]
      rw [skipJoin]
      exact List.elem_eq_true_of_mem hskip
    constructor
    · intro x hx
      rw [IPATrustADTopologyController.topology_setup] at hx
      have hmem : x ∈ (IPATrustADTopologyController.setupBody env c client ipa trusted
          Tr.empty).2.events ∨ x = Action.restoreVanilla := by
        rcases decorated_events
            (IPATrustADTopologyController.setupBody env c client ipa trusted) Tr.empty with
          hde | hde
        · rw [hde] at hx; exact Or.inl hx
        · rw [hde] at hx
          rcases List.mem_append.mp hx with h | h
          · exact Or.inl h
          · simp at h; exact Or.inr h
      rcases hmem with hmem | hmem
      · rcases trustAD_body_mem env c client ipa trusted x hmem with
          h | h | h | h | h | h | h
        · subst h; simp [provisionedLog, isJoinAction]
        · subst h; simp [isJoinAction]
        · subst h; simp [isJoinAction]
        · subst h; simp [trustAddCmd, isJoinAction]
        · subst h; simp [isJoinAction]
        · rw [hjoin] at h; simp at h
        · subst h; simp [isJoinAction]
      · subst hmem; simp [isJoinAction]
    · intro hok
      obtain ⟨s3, hev, hcmd⟩ := trustAD_ok_shape env c client ipa trusted hnp hok
      rw [hev]
      exact List.mem_append_left _ hcmd
  · intro env c client ipa trusted hnp hskip
    have hnp' : ¬ c.provisioned = true := by simp [hnp]
    have hjoin : joinIfNeeded c client ipa = [] := by
      rw [joinIfNeeded, if_pos]
      rw [skipJoin]
      exact List.elem_eq_true_of_mem hskip
    constructor
    · intro x hx
      rw [IPATrustIPATopologyController.topology_setup] at hx
      have hmem : x ∈ (IPATrustIPATopologyController.setupBody env c client ipa trusted
          Tr.empty).2.events ∨ x = Action.restoreVanilla := by
        rcases decorated_events
            (IPATrustIPATopologyController.setupBody env c client ipa trusted) Tr.empty with
          hde | hde
        · rw [hde] at hx; exact Or.inl hx
        · rw [hde] at hx
          rcases List.mem_append.mp hx with h | h
          · exact Or.inl h
          · simp at h; exact Or.inr h
      rcases hmem with hmem | hmem
      · rw [IPATrustIPATopologyController.setupBody, if_neg hnp'] at hmem
        rcases runActs_mem env _ _ x hmem with h | h
        · simp [Tr.empty] at h
        · rw [IPATrustIPATopologyController.setupActs, hjoin] at h
          simp [IPATrustIPATopologyController.preTrustActs, ipaIpaTrustCmd] at h
          rcases h with h | h | h | h | h | h | h | h | h | h | h | h | h | h | h <;>
            subst h <;> simp [isJoinAction]
      · subst hmem; simp [isJoinAction]
    · intro hok
      rw [IPATrustIPATopologyController.topology_setup] at hok ⊢
      obtain ⟨heq, hbok⟩ := decorator_ok _ _ hok
      rw [heq]
      rw [IPATrustIPATopologyController.setupBody, if_neg hnp'] at hbok ⊢
      rw [runActs_ok_events env _ _ hbok]
      simp [Tr.empty, IPATrustIPATopologyController.setupActs,
        IPATrustIPATopologyController.preTrustActs]

/-- Witness for C5: with "ipa" pre-provisioned, a successful concrete run of
both trust setups still issues the trust-creation command. -/
theorem claim_C5_witness :
    trustAddCmd wIpa wAd
      ∈ (IPATrustADTopologyController.topology_setup envOK cSkip wClient wIpa wAd
          Tr.empty).2.events ∧
    ipaIpaTrustCmd wIpa wIpa2
      ∈ (IPATrustIPATopologyController.topology_setup envOK cSkip wClient wIpa wIpa2
          Tr.empty).2.events :=
  ⟨(claim_C5.1 envOK cSkip wClient wIpa wAd rfl (by simp [cSkip])).2 rfl,
   (claim_C5.2 envOK cSkip wClient wIpa wIpa2 rfl (by simp [cSkip])).2 rfl⟩

/-- The conditional join contributes no snapshot entries. -/
theorem backupHosts_joinIfNeeded (c : Controller) (client ipa : Host) :
    backupHosts (joinIfNeeded c client ipa) = [] := by
  rw [joinIfNeeded]
  split <;> simp [ipaJoinActs, backupHosts]

/-- Claim C8: for every non-provisioned topology, after a successful setup the
backup-snapshot mapping contains an entry for every host passed to setup; in
particular the IPA-trusts-IPA setup ends by snapshotting all three hosts
(primary realm, trusted realm, client). -/
theorem claim_C8 :
    (∀ (env : Env) (c : Controller) (client ipa : Host),
      c.provisioned = false →
      (IPATopologyController.topology_setup env c client ipa Tr.empty).1 = Except.ok () →
      client.hostname ∈ backupHosts
        (IPATopologyController.topology_setup env c client ipa Tr.empty).2.events ∧
      ipa.hostname ∈ backupHosts
        (IPATopologyController.topology_setup env c client ipa Tr.empty).2.events) ∧
    (∀ (env : Env) (c : Controller) (client provider : Host),
      c.provisioned = false →
      (ADTopologyController.topology_setup env c client provider Tr.empty).1 = Except.ok () →
      client.hostname ∈ backupHosts
        (ADTopologyController.topology_setup env c client provider Tr.empty).2.events ∧
      provider.hostname ∈ backupHosts
        (ADTopologyController.topology_setup env c client provider Tr.empty).2.events) ∧
    (∀ (env : Env) (c : Controller) (client ipa trusted : Host),
      c.provisioned = false →
      (IPATrustADTopologyController.topology_setup env c client ipa trusted Tr.empty).1
        = Except.ok () →
      client.hostname ∈ backupHosts
        (IPATrustADTopologyController.topology_setup env c client ipa trusted Tr.empty).2.events ∧
      ipa.hostname ∈ backupHosts
        (IPATrustADTopologyController.topology_setup env c client ipa trusted Tr.empty).2.events ∧
      trusted.hostname ∈ backupHosts
        (IPATrustADTopologyController.topology_setup env c client ipa trusted Tr.empty).2.events) ∧
    (∀ (env : Env) (c : Controller) (client ipa trusted : Host),
      c.provisioned = false →
      (IPATrustIPATopologyController.topology_setup env c client ipa trusted Tr.empty).1
        = Except.ok () →
      (client.hostname ∈ backupHosts
        (IPATrustIPATopologyController.topology_setup env c client ipa trusted
          Tr.empty).2.events ∧
      ipa.hostname ∈ backupHosts
        (IPATrustIPATopologyController.topology_setup env c client ipa trusted
          Tr.empty).2.events ∧
      trusted.hostname ∈ backupHosts
        (IPATrustIPATopologyController.topology_setup env c client ipa trusted
          Tr.empty).2.events) ∧
      (IPATrustIPATopologyController.topology_setup env c client ipa trusted Tr.empty).2.events
        = (IPATrustIPATopologyController.preTrustActs client ipa trusted
            ++ joinIfNeeded c client ipa)
          ++ [Action.backupHost ipa.hostname, Action.backupHost trusted.hostname,
              Action.backupHost client.hostname]) := by
  refine ⟨?_, ?_, ?_, ?_⟩
  · intro env c client ipa hnp hok
    have hnp' : ¬ c.provisioned = true := by simp [hnp]
    rw [IPATopologyController.topology_setup] at hok ⊢
    obtain ⟨heq, hbok⟩ := decorator_ok _ _ hok
    rw [heq]
    rw [IPATopologyController.setupBody, if_neg hnp'] at hbok ⊢
    rw [runActs_ok_events env _ _ hbok]
    constructor <;>
      simp [Tr.empty, IPATopologyController.setupActs, ipaJoinActs,
        backupHosts_append, backupHosts]
  · intro env c client provider hnp hok
    have hnp' : ¬ c.provisioned = true := by simp [hnp]
    rw [ADTopologyController.topology_setup] at hok ⊢
    obtain ⟨heq, hbok⟩ := decorator_ok _ _ hok
    rw [heq]
    rw [ADTopologyController.setupBody, if_neg hnp'] at hbok ⊢
    rw [runActs_ok_events env _ _ hbok]
    constructor <;>
      simp [Tr.empty, ADTopologyController.setupActs, backupHosts_append, backupHosts]
  · intro env c client ipa trusted hnp hok
    obtain ⟨s3, hev, _⟩ := trustAD_ok_shape env c client ipa trusted hnp hok
    rw [hev]
    refine ⟨?_, ?_, ?_⟩ <;>
      simp [backupHosts_append, backupHosts, backupHosts_joinIfNeeded]
  · intro env c client ipa trusted hnp hok
    have hnp' : ¬ c.provisioned = true := by simp [hnp]
    rw [IPATrustIPATopologyController.topology_setup] at hok ⊢
    obtain ⟨heq, hbok⟩ := decorator_ok _ _ hok
    rw [heq]
    rw [IPATrustIPATopologyController.setupBody, if_neg hnp'] at hbok ⊢
    rw [runActs_ok_events env _ _ hbok]
    constructor
    · refine ⟨?_, ?_, ?_⟩ <;>
        simp [Tr.empty, IPATrustIPATopologyController.setupActs,
          backupHosts_append, backupHosts, backupHosts_joinIfNeeded]
    · simp [Tr.empty, IPATrustIPATopologyController.setupActs, List.append_assoc]

/-- Witness for C8: concrete successful runs populate the snapshot mapping. -/
theorem claim_C8_witness :
    (wClient.hostname ∈ backupHosts
      (IPATopologyController.topology_setup envOK cNon wClient wIpa Tr.empty).2.events ∧
     wIpa.hostname ∈ backupHosts
      (IPATopologyController.topology_setup envOK cNon wClient wIpa Tr.empty).2.events) ∧
    (IPATrustIPATopologyController.topology_setup envOK cNon wClient wIpa wIpa2
        Tr.empty).2.events
      = (IPATrustIPATopologyController.preTrustActs wClient wIpa wIpa2
          ++ joinIfNeeded cNon wClient wIpa)
        ++ [Action.backupHost wIpa.hostname, Action.backupHost wIpa2.hostname,
            Action.backupHost wClient.hostname] :=
  ⟨claim_C8.1 envOK cNon wClient wIpa rfl rfl,
   (claim_C8.2.2.2 envOK cNon wClient wIpa wIpa2 rfl rfl).2⟩

/-- Claim C2: the retry-wrapped `trust_add` propagates a non-matching failure
immediately after one attempt; when the first `N - 1` attempts fail with the
matching CIFS error and attempt `N` succeeds (`N ≤ 20`), it succeeds after
exactly `N` attempts with a 5-second sleep between consecutive attempts; and
when all 20 attempts fail with the matching error it gives up after exactly 20
attempts, raising the last error. -/
theorem claim_C2 :
    (∀ (env : Env) (ipa trusted : Host) (e : String),
      env 0 (trustAddCmd ipa trusted) = Res.err e →
      matchesSubstr e cifsMatch = false →
      (IPATrustADTopologyController.trust_add env ipa trusted Tr.empty).1 = Except.error e ∧
      (IPATrustADTopologyController.trust_add env ipa trusted Tr.empty).2.events
        = [trustAddCmd ipa trusted]) ∧
    (∀ (env : Env) (ipa trusted : Host) (N : Nat),
      1 ≤ N → N ≤ 20 →
      (∀ k, k < N - 1 → ∃ e, env k (trustAddCmd ipa trusted) = Res.err e ∧
        matchesSubstr e cifsMatch = true) →
      env (N - 1) (trustAddCmd ipa trusted) = Res.ok →
      (IPATrustADTopologyController.trust_add env ipa trusted Tr.empty).1 = Except.ok () ∧
      (IPATrustADTopologyController.trust_add env ipa trusted Tr.empty).2.events
        = (List.replicate (N - 1) [trustAddCmd ipa trusted, Action.sleep 5]).join
          ++ [trustAddCmd ipa trusted] ∧
      (IPATrustADTopologyController.trust_add env ipa trusted Tr.empty).2.events.count
        (trustAddCmd ipa trusted) = N) ∧
    (∀ (env : Env) (ipa trusted : Host) (errs : Nat → String),
      (∀ k, k < 20 → env k (trustAddCmd ipa trusted) = Res.err (errs k) ∧
        matchesSubstr (errs k) cifsMatch = true) →
      (IPATrustADTopologyController.trust_add env ipa trusted Tr.empty).1
        = Except.error (errs 19) ∧
      (IPATrustADTopologyController.trust_add env ipa trusted Tr.empty).2.events
        = (List.replicate 19 [trustAddCmd ipa trusted, Action.sleep 5]).join
          ++ [trustAddCmd ipa trusted]) := by
  refine ⟨?_, ?_, ?_⟩
  · intro env ipa trusted e he hm
    rw [IPATrustADTopologyController.trust_add]
    rw [show (20 : Nat) = 19 + 1 from rfl]
    rw [retry_first_err env (trustAddCmd ipa trusted) cifsMatch 5 rfl 19 Tr.empty e he hm]
    refine ⟨rfl, ?_⟩
    rw [stepTr_events]
    simp [Tr.empty]
  · intro env ipa trusted N h1 h20 hk hN
    have hfin := retry_ok_of env (trustAddCmd ipa trusted) cifsMatch 5 rfl (N - 1) 20
      Tr.empty (by omega)
      (fun k hkk => by simpa [Tr.empty] using hk k hkk)
      (by simpa [Tr.empty] using hN)
    rw [IPATrustADTopologyController.trust_add]
    have hne : trustAddCmd ipa trusted ≠ Action.sleep 5 := by simp [trustAddCmd]
    refine ⟨hfin.1, ?_, ?_⟩
    · rw [hfin.2]; simp [Tr.empty]
    · rw [hfin.2, List.count_append, List.count_append,
        count_join_replicate_pair _ _ hne]
      simp [Tr.empty]
      omega
  · intro env ipa trusted errs hk
    have hfin := retry_exhaust env (trustAddCmd ipa trusted) cifsMatch 5 rfl 20 errs
      Tr.empty (by norm_num)
      (fun k hkk => by simpa [Tr.empty] using hk k hkk)
    rw [IPATrustADTopologyController.trust_add]
    constructor
    · simpa using hfin.1
    · rw [hfin.2]
      norm_num [Tr.empty]

/-- Witness for C2: with an environment failing twice with the CIFS error and
then succeeding, `trust_add` succeeds after exactly three attempts. -/
theorem claim_C2_witness :
    (IPATrustADTopologyController.trust_add envCifs wIpa wAd Tr.empty).1 = Except.ok () ∧
    (IPATrustADTopologyController.trust_add envCifs wIpa wAd Tr.empty).2.events
      = (List.replicate 2 [trustAddCmd wIpa wAd, Action.sleep 5]).join
        ++ [trustAddCmd wIpa wAd] ∧
    (IPATrustADTopologyController.trust_add envCifs wIpa wAd Tr.empty).2.events.count
      (trustAddCmd wIpa wAd) = 3 := by
  have h := claim_C2.2.1 envCifs wIpa wAd 3 (by norm_num) (by norm_num)
    (fun k hkk => ⟨cifsMatch,
      by have h2 : k < 2 := by omega
         simp [envCifs, h2], by decide⟩)
    (by simp [envCifs])
  simpa using h

end SSSDTF
